import Mathlib

/-
Verification development for the swiftui-for-react-devs repository.

Two subsystems carry the testable logic and are embedded here:

ThemePreference (src context/ThemeContext): resolves and persists a binary
light/dark theme, reconciling a persisted key-value store entry, an OS
preference signal, and an explicit toggle operation.

LessonCatalog (src data/lessons, data/swift-basics, types): a static list of
lesson records with pure query functions (lookup by id, filter by module,
first-occurrence deduplication of categories).

Browser facilities are modelled explicitly: an execution context records
whether a window object exists, whether the localStorage binding is
accessible (accessing it when it is not throws, which the embedding models
with Except), the string contents of the store, whether window.matchMedia is
available, and what the media query (prefers-color-scheme: light) reports.
-/

namespace SwiftReact

/-- Embeds the union type Theme = "light" | "dark". -/
inductive Theme where
  | light
  | dark
  deriving DecidableEq

/-- Rendering of a Theme value back to the string literal the source stores. -/
def themeToString : Theme → String
  | Theme.light => "light"
  | Theme.dark => "dark"

/-- Execution context for the theme module: hasWindow is whether a window
object exists (the source tests typeof window), storeAvailable is whether the
localStorage binding can be accessed without throwing, store is the current
contents of the key-value store, matchMediaAvailable is whether
window.matchMedia exists, and prefersLight is what the media query
(prefers-color-scheme: light) reports when available. -/
structure Env where
  hasWindow : Bool
  storeAvailable : Bool
  store : String → Option String
  matchMediaAvailable : Bool
  prefersLight : Bool

/-- Embeds the constant STORAGE_KEY = "theme". -/
def STORAGE_KEY : String := "theme"

/-- Embeds getStoredTheme: returns null when window is undefined, otherwise
reads localStorage (which throws when the binding is inaccessible) and
returns the stored string only when it is exactly "light" or "dark". -/
def getStoredTheme (env : Env) : Except String (Option Theme) :=
  if env.hasWindow = false then Except.ok none
  else if env.storeAvailable = false then Except.error ("localStorage unavailable")
  else
    match env.store STORAGE_KEY with
    | none => Except.ok none
    | some s =>
        if s = "light" then Except.ok (some Theme.light)
        else if s = "dark" then Except.ok (some Theme.dark)
        else Except.ok none

/-- Embeds getSystemTheme: when a window exists and window.matchMedia is
available, light iff the query (prefers-color-scheme: light) matches;
otherwise dark. This function never throws. -/
def getSystemTheme (env : Env) : Theme :=
  if env.hasWindow && env.matchMediaAvailable then
    if env.prefersLight then Theme.light else Theme.dark
  else Theme.dark

/-- Embeds getInitialTheme: getStoredTheme() ?? getSystemTheme(). -/
def getInitialTheme (env : Env) : Except String Theme :=
  match getStoredTheme env with
  | Except.error e => Except.error e
  | Except.ok stored => Except.ok (stored.getD (getSystemTheme env))

/-- Embeds the handleChange listener registered by ThemeProvider on the
(prefers-color-scheme: light) media query: on a notification whose matches
flag is the given boolean, the active theme is replaced by the signalled
theme only when getStoredTheme() is null, and is kept otherwise. -/
def handleChange (env : Env) (eventMatches : Bool) (theme : Theme) : Except String Theme :=
  match getStoredTheme env with
  | Except.error e => Except.error e
  | Except.ok stored =>
      if stored.isNone then Except.ok (if eventMatches then Theme.light else Theme.dark)
      else Except.ok theme

/-- Delivery of a sequence of OS preference-change notifications to the
handleChange listener, threading the active theme; the store is unchanged by
the listener so the context stays fixed. -/
def processNotifications (env : Env) (events : List Bool) (theme : Theme) :
    Except String Theme :=
  match events with
  | [] => Except.ok theme
  | m :: rest =>
      match handleChange env m theme with
      | Except.error e => Except.error e
      | Except.ok t => processNotifications env rest t

/-- State owned by ThemeProvider: the active theme plus the execution
context holding the persisted store. -/
structure ThemeState where
  theme : Theme
  env : Env

/-- Embeds localStorage.setItem(key, value): updates the store entry, and
throws when the localStorage binding is inaccessible in this context. -/
def setItem (env : Env) (key value : String) : Except String Env :=
  if env.storeAvailable then
    Except.ok { env with store := fun q => if q = key then some value else env.store q }
  else Except.error ("localStorage unavailable")

/-- Embeds toggleTheme: computes next as the flip of the previous theme,
writes it to localStorage under STORAGE_KEY (an unguarded write), and makes
it the active theme. -/
def toggleTheme (s : ThemeState) : Except String ThemeState :=
  let next := if s.theme = Theme.dark then Theme.light else Theme.dark
  match setItem s.env STORAGE_KEY (themeToString next) with
  | Except.ok env2 => Except.ok { theme := next, env := env2 }
  | Except.error e => Except.error e

/-- Embeds the ThemeContextValue interface: the current theme and the toggle
operation exposed through the context. -/
structure ThemeContextValue where
  theme : Theme
  toggleTheme : ThemeState → Except String ThemeState

/-- Embeds useTheme: reads the context value and throws
"useTheme must be used within ThemeProvider" when no provider supplied one. -/
def useTheme (ctx : Option ThemeContextValue) : Except String ThemeContextValue :=
  match ctx with
  | none => Except.error ("useTheme must be used within ThemeProvider")
  | some v => Except.ok v

/-- A browser-like context with both facilities available, a store holding
the given value under STORAGE_KEY, and the given OS preference. -/
def browserEnv (stored : Option String) (prefersLight : Bool) : Env :=
  { hasWindow := true
    storeAvailable := true
    store := fun k => if k = STORAGE_KEY then stored else none
    matchMediaAvailable := true
    prefersLight := prefersLight }


/-- Embeds the module tag union type "swift-basics" | "swiftui". -/
inductive Module where
  | swiftBasics
  | swiftui
  deriving DecidableEq

/-- Embeds LessonSection, the union of ComparisonSection and
SingleCodeSection tagged by the string field format. Only the fields the
verified claims reference are carried: the format discriminator (kept as the
raw string the runtime type guards inspect) and the section title; the
explanation, tips, and code-example payload strings are projected away since
no claim mentions them. -/
structure LessonSection where
  format : String
  title : String
  deriving DecidableEq

/-- Embeds the Lesson record; the description display string is projected
away since no claim mentions it. -/
structure Lesson where
  id : String
  title : String
  module : Module
  category : String
  sections : List LessonSection
  deriving DecidableEq

/-- Embeds the type guard isComparisonSection: section.format === "comparison". -/
def isComparisonSection (s : LessonSection) : Bool :=
  s.format == "comparison"

/-- Embeds the type guard isSingleCodeSection: section.format === "single". -/
def isSingleCodeSection (s : LessonSection) : Bool :=
  s.format == "single"

/-- Modelled from the spec: the format discriminator carried by each section
of the swift-basics lessons. The bundled revision of the swift-basics data
file predates the introduction of the format discriminator (it matches an
older types file without format), so the current tagged revision of that data
file is missing from the sources; per the spec a section carrying a react and
a swiftui code example is the ComparisonSection variant, and every bundled
swift-basics section carries exactly that comparison shape, so each section
is tagged "comparison". -/
def swiftBasicsSectionFormat : String := "comparison"

/-- Embeds the swiftBasicsLessons array literal (ids, titles, modules,
categories, and section titles transcribed from the source; section formats
via swiftBasicsSectionFormat, see its doc comment). -/
def swiftBasicsLessons : List Lesson := [
  { id := "types-and-inference", title := "Types & Type Inference",
    module := Module.swiftBasics, category := "Type System",
    sections := [
      { format := swiftBasicsSectionFormat, title := "Basic Type Annotations" },
      { format := swiftBasicsSectionFormat, title := "Type Inference" },
      { format := swiftBasicsSectionFormat, title := "Arrays & Dictionaries" },
      { format := swiftBasicsSectionFormat, title := "String Interpolation" }
    ] },
  { id := "optionals-nil-safety", title := "Optionals & Nil Safety",
    module := Module.swiftBasics, category := "Type System",
    sections := [
      { format := swiftBasicsSectionFormat, title := "Optional Declaration" },
      { format := swiftBasicsSectionFormat, title := "Optional Chaining" },
      { format := swiftBasicsSectionFormat, title := "Unwrapping with if let" },
      { format := swiftBasicsSectionFormat, title := "Guard Statements" },
      { format := swiftBasicsSectionFormat, title := "Force Unwrap & Nil Coalescing" }
    ] },
  { id := "structs-vs-classes", title := "Structs vs Classes",
    module := Module.swiftBasics, category := "Memory & Types",
    sections := [
      { format := swiftBasicsSectionFormat, title := "Class Syntax" },
      { format := swiftBasicsSectionFormat, title := "Struct Syntax" },
      { format := swiftBasicsSectionFormat, title := "Value vs Reference Demo" },
      { format := swiftBasicsSectionFormat, title := "Mutating Methods" },
      { format := swiftBasicsSectionFormat, title := "When to Use Which" }
    ] },
  { id := "protocols", title := "Protocols",
    module := Module.swiftBasics, category := "Memory & Types",
    sections := [
      { format := swiftBasicsSectionFormat, title := "Basic Protocol" },
      { format := swiftBasicsSectionFormat, title := "Conforming to Protocols" },
      { format := swiftBasicsSectionFormat, title := "Protocol Properties" },
      { format := swiftBasicsSectionFormat, title := "Protocol Extensions (Swift Superpower)" },
      { format := swiftBasicsSectionFormat, title := "The View Protocol" }
    ] },
  { id := "closures", title := "Closures",
    module := Module.swiftBasics, category := "Functions & Closures",
    sections := [
      { format := swiftBasicsSectionFormat, title := "Basic Closure Syntax" },
      { format := swiftBasicsSectionFormat, title := "Trailing Closure Syntax" },
      { format := swiftBasicsSectionFormat, title := "Shorthand Arguments" },
      { format := swiftBasicsSectionFormat, title := "Multiple Trailing Closures" }
    ] },
  { id := "enums-associated-values", title := "Enums with Associated Values",
    module := Module.swiftBasics, category := "Advanced Types",
    sections := [
      { format := swiftBasicsSectionFormat, title := "Basic Enums" },
      { format := swiftBasicsSectionFormat, title := "Associated Values (The Superpower)" },
      { format := swiftBasicsSectionFormat, title := "Pattern Matching" },
      { format := swiftBasicsSectionFormat, title := "Optional is Just an Enum" }
    ] },
  { id := "property-wrappers", title := "Property Wrappers",
    module := Module.swiftBasics, category := "Advanced Types",
    sections := [
      { format := swiftBasicsSectionFormat, title := "What Property Wrappers Are" },
      { format := swiftBasicsSectionFormat, title := "How Property Wrappers Work" },
      { format := swiftBasicsSectionFormat, title := "Projected Value ($prefix)" },
      { format := swiftBasicsSectionFormat, title := "SwiftUI\u0027s Property Wrappers" }
    ] },
  { id := "generics-opaque-types", title := "Generics & Opaque Types",
    module := Module.swiftBasics, category := "Advanced Types",
    sections := [
      { format := swiftBasicsSectionFormat, title := "Generic Functions" },
      { format := swiftBasicsSectionFormat, title := "Generic Constraints" },
      { format := swiftBasicsSectionFormat, title := "Opaque Types (some)" },
      { format := swiftBasicsSectionFormat, title := "Why `some View`" }
    ] },
  { id := "access-control", title := "Access Control",
    module := Module.swiftBasics, category := "Safety & Errors",
    sections := [
      { format := swiftBasicsSectionFormat, title := "Access Levels" },
      { format := swiftBasicsSectionFormat, title := "Default is Internal" },
      { format := swiftBasicsSectionFormat, title := "Private in SwiftUI" }
    ] },
  { id := "error-handling", title := "Error Handling",
    module := Module.swiftBasics, category := "Safety & Errors",
    sections := [
      { format := swiftBasicsSectionFormat, title := "Throwing Functions" },
      { format := swiftBasicsSectionFormat, title := "do-catch Syntax" },
      { format := swiftBasicsSectionFormat, title := "try? and try!" },
      { format := swiftBasicsSectionFormat, title := "Result Type" }
    ] }
]

/-- Embeds the swiftuiLessons array literal (ids, titles, modules,
categories, and per-section format tags and titles transcribed from the
source). -/
def swiftuiLessons : List Lesson := [
  { id := "basics", title := "Basic Components",
    module := Module.swiftui, category := "Fundamentals",
    sections := [
      { format := "comparison", title := "Functional Components → Structs" },
      { format := "comparison", title := "JSX Elements → View Modifiers" },
      { format := "comparison", title := "Text & Typography" },
      { format := "comparison", title := "Images & SF Symbols" },
      { format := "comparison", title := "Buttons & Actions" }
    ] },
  { id := "state", title := "State Management",
    module := Module.swiftui, category := "Fundamentals",
    sections := [
      { format := "comparison", title := "useState → @State" },
      { format := "comparison", title := "Props with Callbacks → @Binding" },
      { format := "comparison", title := "useEffect → .onAppear / .onChange / .task" },
      { format := "comparison", title := "@StateObject vs @State" },
      { format := "comparison", title := "Derived State (Computed Properties)" },
      { format := "comparison", title := "@AppStorage" }
    ] },
  { id := "view-lifecycle", title := "View Lifecycle",
    module := Module.swiftui, category := "Fundamentals",
    sections := [
      { format := "comparison", title := "onAppear / onDisappear" },
      { format := "comparison", title := "task modifier" },
      { format := "comparison", title := "onChange" },
      { format := "comparison", title := "View Identity" }
    ] },
  { id := "layout", title := "Layout & Flexbox",
    module := Module.swiftui, category := "Layout",
    sections := [
      { format := "comparison", title := "Flexbox → Stacks" },
      { format := "comparison", title := "justify-content & align-items → Stack Alignment" },
      { format := "comparison", title := "Grid Layouts" },
      { format := "comparison", title := "Frame & Sizing" },
      { format := "comparison", title := "Safe Area & Padding" }
    ] },
  { id := "alignment-positioning", title := "Alignment & Positioning",
    module := Module.swiftui, category := "Layout",
    sections := [
      { format := "comparison", title := "Alignment Guides" },
      { format := "comparison", title := "GeometryReader" },
      { format := "comparison", title := "Position vs Offset" },
      { format := "comparison", title := "ZIndex & Overlays" }
    ] },
  { id := "scroll-advanced", title := "Scroll & Lists Advanced",
    module := Module.swiftui, category := "Layout",
    sections := [
      { format := "comparison", title := "ScrollView" },
      { format := "comparison", title := "ScrollViewReader" },
      { format := "comparison", title := "Lazy Stacks" },
      { format := "comparison", title := "Pull to Refresh" }
    ] },
  { id := "lists", title := "Lists & Iteration",
    module := Module.swiftui, category := "Data Display",
    sections := [
      { format := "comparison", title := "Array.map() → ForEach" },
      { format := "comparison", title := "Conditional Rendering" },
      { format := "comparison", title := "List Styles" },
      { format := "comparison", title := "Swipe Actions" },
      { format := "comparison", title := "Section Headers & Footers" }
    ] },
  { id := "data-models", title := "Data & Models",
    module := Module.swiftui, category := "Data Display",
    sections := [
      { format := "comparison", title := "Codable" },
      { format := "comparison", title := "Identifiable" },
      { format := "comparison", title := "Equatable & Hashable" },
      { format := "comparison", title := "Property Observers" }
    ] },
  { id := "navigation", title := "Navigation & Routing",
    module := Module.swiftui, category := "Navigation",
    sections := [
      { format := "comparison", title := "React Router → NavigationStack" },
      { format := "comparison", title := "Modals & Sheets" },
      { format := "comparison", title := "NavigationPath" },
      { format := "comparison", title := "Deep Linking" },
      { format := "comparison", title := "Tab Navigation" }
    ] },
  { id := "forms", title := "Forms & Inputs",
    module := Module.swiftui, category := "Forms",
    sections := [
      { format := "comparison", title := "Controlled Inputs → TextField" },
      { format := "comparison", title := "Select/Dropdown → Picker" },
      { format := "comparison", title := "Form Validation" },
      { format := "comparison", title := "Focus Management" },
      { format := "comparison", title := "Keyboard Handling" }
    ] },
  { id := "pickers-selection", title := "Pickers & Selection",
    module := Module.swiftui, category := "Forms",
    sections := [
      { format := "comparison", title := "DatePicker" },
      { format := "comparison", title := "ColorPicker" },
      { format := "comparison", title := "PhotosPicker" },
      { format := "comparison", title := "Menu & Context Menu" }
    ] },
  { id := "context", title := "Global State & Context",
    module := Module.swiftui, category := "State",
    sections := [
      { format := "comparison", title := "Context API → @Environment" },
      { format := "comparison", title := "Global State → @Observable" },
      { format := "comparison", title := "Dependency Injection" },
      { format := "comparison", title := "@Observable Patterns" },
      { format := "comparison", title := "Combine Integration" }
    ] },
  { id := "animations", title := "Animations",
    module := Module.swiftui, category := "UI",
    sections := [
      { format := "comparison", title := "CSS Transitions → withAnimation" },
      { format := "comparison", title := "Enter/Exit Animations → transition" },
      { format := "comparison", title := "Spring Animations" },
      { format := "comparison", title := "Matched Geometry Effect" },
      { format := "comparison", title := "Phase Animator" },
      { format := "comparison", title := "@Animatable Macro (iOS 26)" },
      { format := "comparison", title := "@IncrementalState (iOS 26)" }
    ] },
  { id := "gestures", title := "Gestures & Interactions",
    module := Module.swiftui, category := "UI",
    sections := [
      { format := "comparison", title := "Tap & Long Press" },
      { format := "comparison", title := "Drag Gesture" },
      { format := "comparison", title := "Magnification & Rotation" },
      { format := "comparison", title := "Gesture Composition" },
      { format := "comparison", title := "Haptic Feedback" }
    ] },
  { id := "networking", title := "Data Fetching",
    module := Module.swiftui, category := "Data",
    sections := [
      { format := "comparison", title := "fetch() → URLSession" },
      { format := "comparison", title := "React Query Pattern → Observable + .task" },
      { format := "comparison", title := "Error States" },
      { format := "comparison", title := "Loading States" }
    ] },
  { id := "persistence", title := "Persistence & Storage",
    module := Module.swiftui, category := "Data",
    sections := [
      { format := "comparison", title := "UserDefaults" },
      { format := "comparison", title := "FileManager" },
      { format := "comparison", title := "SwiftData" },
      { format := "comparison", title := "Keychain" }
    ] },
  { id := "alerts-sheets", title := "Alerts & Sheets",
    module := Module.swiftui, category := "UI",
    sections := [
      { format := "comparison", title := "Alert" },
      { format := "comparison", title := "Confirmation Dialog" },
      { format := "comparison", title := "Sheet Presentations" },
      { format := "comparison", title := "Popover" }
    ] },
  { id := "liquid-glass", title := "Liquid Glass (iOS 26)",
    module := Module.swiftui, category := "UI",
    sections := [
      { format := "comparison", title := "Liquid Glass Overview" },
      { format := "comparison", title := "Material Effects" }
    ] },
  { id := "search-filtering", title := "Search & Filtering",
    module := Module.swiftui, category := "Data Display",
    sections := [
      { format := "comparison", title := "Searchable" },
      { format := "comparison", title := "Search Suggestions" },
      { format := "comparison", title := "Filtering Data" }
    ] },
  { id := "accessibility", title := "Accessibility",
    module := Module.swiftui, category := "Advanced",
    sections := [
      { format := "comparison", title := "Labels & Hints" },
      { format := "comparison", title := "VoiceOver" },
      { format := "comparison", title := "Dynamic Type" },
      { format := "comparison", title := "Reduce Motion" }
    ] }
]

/-- Embeds lessons = [...swiftBasicsLessons, ...swiftuiLessons]. -/
def lessons : List Lesson := swiftBasicsLessons ++ swiftuiLessons

/-- Embeds getLessonsByModule: lessons.filter((l) => l.module === module). -/
def getLessonsByModule (m : Module) : List Lesson :=
  lessons.filter (fun l => l.module == m)

/-- Embeds getLessonById: lessons.find((l) => l.id === id). -/
def getLessonById (id : String) : Option Lesson :=
  lessons.find? (fun l => l.id == id)

/-- Embeds the JavaScript expression [...new Set(xs)]. A Set holds each
value at most once and iterates in insertion order, and inserting a value
already present is a no-op; the seen argument is the set contents built so
far and the result is the iteration (insertion) order. -/
def jsSetOfList (seen : List String) : List String → List String
  | [] => []
  | x :: xs => if x ∈ seen then jsSetOfList seen xs else x :: jsSetOfList (x :: seen) xs

/-- Spreading a freshly built Set: [...new Set(xs)] with nothing seen yet. -/
def jsSetDedup (xs : List String) : List String :=
  jsSetOfList [] xs

/-- Embeds getCategoriesForModule:
[...new Set(getLessonsByModule(module).map((l) => l.category))]. -/
def getCategoriesForModule (m : Module) : List String :=
  jsSetDedup ((getLessonsByModule m).map (fun l => l.category))

/-- Embeds the exported constant categories =
[...new Set(lessons.map((l) => l.category))]. -/
def categories : List String :=
  jsSetDedup (lessons.map (fun l => l.category))

/-- Stated from the specification words, for comparison with jsSetDedup: a
stable unique operation that keeps the first occurrence of each value and
drops the later duplicates, preserving relative order. -/
def firstOccurrenceDedup : List String → List String
  | [] => []
  | x :: xs => x :: (firstOccurrenceDedup xs).filter (fun y => y != x)

/-- Every section of every lesson of the catalog, in catalog order. -/
def allSections : List LessonSection :=
  lessons.flatMap (fun l => l.sections)


/-- Claim C1: for every combination of persisted store content (absent,
"light", "dark", or any other string) and OS signal value, the initial theme
resolution returns the persisted value when it is exactly "light" or "dark",
otherwise "light" when the OS signal reports prefers-light true, otherwise
"dark"; a stored value other than "light"/"dark" counts as absent. Stated in
a context where the window, the store and window.matchMedia are available. -/
theorem c1_initial_theme_resolution (env : Env)
    (hw : env.hasWindow = true) (hs : env.storeAvailable = true)
    (hm : env.matchMediaAvailable = true) :
    getInitialTheme env = Except.ok
      (if env.store STORAGE_KEY = some ("light") then Theme.light
       else if env.store STORAGE_KEY = some ("dark") then Theme.dark
       else if env.prefersLight = true then Theme.light
       else Theme.dark) := by
  cases hst : env.store STORAGE_KEY with
  | none =>
      simp only [getInitialTheme, getStoredTheme, getSystemTheme, hw, hs, hm, hst]
      cases hp : env.prefersLight <;> simp
  | some s =>
      by_cases h1 : s = "light"
      · simp [getInitialTheme, getStoredTheme, getSystemTheme, hw, hs, hm, hst, h1]
      · by_cases h2 : s = "dark"
        · simp [getInitialTheme, getStoredTheme, getSystemTheme, hw, hs, hm, hst, h1, h2]
        · simp only [getInitialTheme, getStoredTheme, getSystemTheme, hw, hs, hm, hst]
          cases hp : env.prefersLight <;> simp [h1, h2]

/-- Witness for C1 at a concrete context: store holds the junk value "blue"
(counts as absent) and the OS reports prefers-light, so the resolved initial
theme is light. -/
theorem c1_witness :
    getInitialTheme (browserEnv (some ("blue")) true) = Except.ok Theme.light := by
  have h := c1_initial_theme_resolution (browserEnv (some ("blue")) true) rfl rfl rfl
  simpa using h

/-- Claim C2: an OS preference-change notification delivered to the
subscribed handler sets the active theme to light/dark according to the
notification boolean when no persisted preference exists in the store, leaves
the active theme unchanged when a persisted preference exists, and the
suppression holds across every subsequent notification while the persisted
value remains. -/
theorem c2_os_change_adoption_and_suppression :
    (∀ env m t, getStoredTheme env = Except.ok none →
        handleChange env m t = Except.ok (if m then Theme.light else Theme.dark)) ∧
    (∀ env m t st, getStoredTheme env = Except.ok (some st) →
        handleChange env m t = Except.ok t) ∧
    (∀ env events t st, getStoredTheme env = Except.ok (some st) →
        processNotifications env events t = Except.ok t) := by
  refine ⟨?_, ?_, ?_⟩
  · intro env m t h
    simp [handleChange, h]
  · intro env m t st h
    simp [handleChange, h]
  · intro env events t st h
    induction events generalizing t with
    | nil => rfl
    | cons m rest ih =>
        simp only [processNotifications, handleChange, h, Option.isNone_some,
          Bool.false_eq_true, if_false]
        exact ih t

/-- Witness for C2 at concrete contexts: with no stored value a prefers-light
notification adopts light; with the stored value "light" a burst of three
notifications leaves the dark active theme unchanged. -/
theorem c2_witness :
    handleChange (browserEnv none false) true Theme.dark = Except.ok Theme.light ∧
    processNotifications (browserEnv (some ("light")) false) [true, false, true]
      Theme.dark = Except.ok Theme.dark := by
  constructor
  · have h := c2_os_change_adoption_and_suppression.1 (browserEnv none false)
      true Theme.dark rfl
    simpa using h
  · exact c2_os_change_adoption_and_suppression.2.2 (browserEnv (some ("light")) false)
      [true, false, true] Theme.dark Theme.light rfl

/-- Claim C3: in a context where the store is accessible, toggleTheme flips
the active theme (light to dark, dark to light), persists that same new value
under the key "theme" so store and active state agree, and a second call
restores the original theme. -/
theorem c3_toggle_flips_persists_and_involutes (s : ThemeState)
    (hs : s.env.storeAvailable = true) :
    ∃ s2, toggleTheme s = Except.ok s2 ∧
      (s.theme = Theme.light → s2.theme = Theme.dark) ∧
      (s.theme = Theme.dark → s2.theme = Theme.light) ∧
      s2.env.store STORAGE_KEY = some (themeToString s2.theme) ∧
      ∃ s3, toggleTheme s2 = Except.ok s3 ∧ s3.theme = s.theme := by
  obtain ⟨t, env⟩ := s
  cases t <;>
    simp_all [toggleTheme, setItem, themeToString]

/-- Witness for C3 at a concrete state: dark theme, empty accessible store. -/
theorem c3_witness :
    ∃ s2, toggleTheme (ThemeState.mk Theme.dark (browserEnv none false)) =
        Except.ok s2 ∧
      ((ThemeState.mk Theme.dark (browserEnv none false)).theme = Theme.light →
        s2.theme = Theme.dark) ∧
      ((ThemeState.mk Theme.dark (browserEnv none false)).theme = Theme.dark →
        s2.theme = Theme.light) ∧
      s2.env.store STORAGE_KEY = some (themeToString s2.theme) ∧
      ∃ s3, toggleTheme s2 = Except.ok s3 ∧
        s3.theme = (ThemeState.mk Theme.dark (browserEnv none false)).theme :=
  c3_toggle_flips_persists_and_involutes
    (ThemeState.mk Theme.dark (browserEnv none false)) rfl

/-- Claim C4 as amended: initialization is total whenever the window is
absent (the store then counts as holding no value) or the store is
accessible, an unavailable OS signal is treated as reporting false so the
system theme defaults to dark, and toggleTheme is total whenever the store is
accessible; but when the store binding is inaccessible, the unguarded store
accesses throw: toggleTheme always, and initialization when a window exists. -/
theorem c4_amended_totality :
    (∀ env, env.hasWindow = false → getInitialTheme env = Except.ok Theme.dark) ∧
    (∀ env, env.storeAvailable = true → ∃ t, getInitialTheme env = Except.ok t) ∧
    (∀ env, env.hasWindow = true → env.matchMediaAvailable = false →
        getSystemTheme env = Theme.dark) ∧
    (∀ s, s.env.storeAvailable = true → ∃ s2, toggleTheme s = Except.ok s2) ∧
    (∀ s, s.env.storeAvailable = false →
        toggleTheme s = Except.error ("localStorage unavailable")) ∧
    (∀ env, env.hasWindow = true → env.storeAvailable = false →
        getInitialTheme env = Except.error ("localStorage unavailable")) := by
  refine ⟨?_, ?_, ?_, ?_, ?_, ?_⟩
  · intro env hw
    simp [getInitialTheme, getStoredTheme, getSystemTheme, hw]
  · intro env hs
    by_cases hw : env.hasWindow = false
    · exact ⟨Theme.dark, by simp [getInitialTheme, getStoredTheme, getSystemTheme, hw]⟩
    · unfold getInitialTheme getStoredTheme
      rw [if_neg hw, if_neg (by simp [hs] : ¬env.storeAvailable = false)]
      cases env.store STORAGE_KEY with
      | none => exact ⟨getSystemTheme env, by simp⟩
      | some s =>
          by_cases h1 : s = "light"
          · exact ⟨Theme.light, by simp [h1]⟩
          · by_cases h2 : s = "dark"
            · exact ⟨Theme.dark, by simp [h1, h2]⟩
            · exact ⟨getSystemTheme env, by simp [h1, h2]⟩
  · intro env hw hm
    simp [getSystemTheme, hm]
  · intro s hs
    cases htg : toggleTheme s with
    | ok s2 => exact ⟨s2, rfl⟩
    | error e =>
        exfalso
        simp [toggleTheme, setItem, hs] at htg
  · intro s hs
    simp [toggleTheme, setItem, hs]
  · intro env hw hs
    simp [getInitialTheme, getStoredTheme, hw, hs]

/-- Witness for C4 at a concrete context with no window: initialization still
resolves, to dark. -/
theorem c4_witness :
    getInitialTheme
      { hasWindow := false, storeAvailable := false, store := fun _ => none,
        matchMediaAvailable := false, prefersLight := true } =
      Except.ok Theme.dark :=
  c4_amended_totality.1 _ rfl

/-- Counterexample to claim C4 as stated: in an execution context with no
window (so the localStorage binding is inaccessible), a call of toggleTheme
reaches the unguarded localStorage.setItem write and throws instead of
producing a definite theme. -/
theorem c4_counterexample :
    toggleTheme
      { theme := Theme.dark
        env := { hasWindow := false, storeAvailable := false,
                 store := fun _ => none, matchMediaAvailable := false,
                 prefersLight := false } } =
      Except.error ("localStorage unavailable") := rfl

/-- Claim C10: useTheme called with no theme context value present throws an
error with message "useTheme must be used within ThemeProvider", and inside a
provider it returns the provided context value (current theme and the
toggleTheme operation) without throwing. -/
theorem c10_use_theme_contract :
    useTheme none = Except.error ("useTheme must be used within ThemeProvider") ∧
    ∀ v, useTheme (some v) = Except.ok v :=
  ⟨rfl, fun _ => rfl⟩

/-- Witness for C10 at a concrete context value. -/
theorem c10_witness :
    useTheme (some { theme := Theme.dark, toggleTheme := toggleTheme }) =
      Except.ok { theme := Theme.dark, toggleTheme := toggleTheme } :=
  c10_use_theme_contract.2 _


/-- Membership in the result of jsSetOfList: exactly the values of the input
that are not in the seen set. -/
theorem jsSetOfList_mem (xs : List String) :
    ∀ seen a, a ∈ jsSetOfList seen xs ↔ a ∈ xs ∧ a ∉ seen := by
  induction xs with
  | nil =>
      intro seen a
      simp [jsSetOfList]
  | cons x xs ih =>
      intro seen a
      by_cases hx : x ∈ seen
      · rw [jsSetOfList, if_pos hx, ih]
        simp only [List.mem_cons]
        constructor
        · rintro ⟨h1, h2⟩
          exact ⟨Or.inr h1, h2⟩
        · rintro ⟨h1 | h1, h2⟩
          · subst h1
            exact absurd hx h2
          · exact ⟨h1, h2⟩
      · rw [jsSetOfList, if_neg hx]
        simp only [List.mem_cons, ih]
        constructor
        · rintro (rfl | ⟨h1, h2⟩)
          · exact ⟨Or.inl rfl, hx⟩
          · simp only [List.mem_cons, not_or] at h2
            exact ⟨Or.inr h1, h2.2⟩
        · rintro ⟨h1, h2⟩
          by_cases hax : a = x
          · exact Or.inl hax
          · rcases h1 with rfl | h1
            · exact Or.inl rfl
            · refine Or.inr ⟨h1, ?_⟩
              simp only [List.mem_cons, not_or]
              exact ⟨hax, h2⟩

/-- The result of jsSetOfList has no duplicates. -/
theorem jsSetOfList_nodup (xs : List String) :
    ∀ seen, (jsSetOfList seen xs).Nodup := by
  induction xs with
  | nil =>
      intro seen
      simp [jsSetOfList]
  | cons x xs ih =>
      intro seen
      by_cases hx : x ∈ seen
      · rw [jsSetOfList, if_pos hx]
        exact ih seen
      · rw [jsSetOfList, if_neg hx]
        refine List.nodup_cons.mpr ⟨?_, ih _⟩
        intro hmem
        exact ((jsSetOfList_mem xs (x :: seen) x).mp hmem).2 (List.mem_cons_self x seen)

/-- The result of jsSetOfList is a sublist of the input, so relative order is
preserved. -/
theorem jsSetOfList_sublist (xs : List String) :
    ∀ seen, List.Sublist (jsSetOfList seen xs) xs := by
  induction xs with
  | nil =>
      intro seen
      simp [jsSetOfList]
  | cons x xs ih =>
      intro seen
      by_cases hx : x ∈ seen
      · rw [jsSetOfList, if_pos hx]
        exact List.Sublist.cons x (ih seen)
      · rw [jsSetOfList, if_neg hx]
        exact List.Sublist.cons₂ x (ih (x :: seen))

/-- Filtering by a stronger predicate absorbs a previous weaker filter. -/
theorem filter_subsume (p q : String → Bool) (l : List String)
    (h : ∀ a, p a = true → q a = true) :
    (l.filter q).filter p = l.filter p := by
  induction l with
  | nil => rfl
  | cons a l ih =>
      by_cases hp : p a = true
      · have hq := h a hp
        simp [List.filter_cons, hq, hp, ih]
      · have hp2 : p a = false := by
          revert hp
          cases p a <;> simp
        cases hq : q a <;> simp [List.filter_cons, hq, hp2, ih]

/-- jsSetOfList computes the first-occurrence dedup of the input, restricted
to the values outside the seen set. -/
theorem jsSetOfList_eq_firstOccurrenceDedup (xs : List String) :
    ∀ seen, jsSetOfList seen xs =
      (firstOccurrenceDedup xs).filter (fun y => !(decide (y ∈ seen))) := by
  induction xs with
  | nil =>
      intro seen
      rfl
  | cons x xs ih =>
      intro seen
      by_cases hx : x ∈ seen
      · rw [jsSetOfList, if_pos hx, ih, firstOccurrenceDedup, List.filter_cons]
        have hcond : (!(decide (x ∈ seen))) = false := by simp [hx]
        rw [hcond]
        simp only [Bool.false_eq_true, if_false]
        refine (filter_subsume _ _ _ ?_).symm
        intro a ha
        have hna : a ∉ seen := by simpa using ha
        have hax : a ≠ x := by
          intro e
          rw [e] at hna
          exact hna hx
        simpa using hax
      · rw [jsSetOfList, if_neg hx, ih, firstOccurrenceDedup, List.filter_cons]
        have hpx : (!(decide (x ∈ seen))) = true := by simpa using hx
        rw [hpx]
        simp only [if_true]
        have hfun : (fun y => !(decide (y ∈ x :: seen))) =
            (fun y => ((!(decide (y ∈ seen))) && (y != x))) := by
          funext y
          by_cases hy : y = x
          · subst hy
            simp
          · by_cases hys : y ∈ seen <;> simp [hy, hys]
        rw [hfun, List.filter_filter]

/-- Spreading a fresh Set equals the first-occurrence dedup described by the
specification. -/
theorem jsSetDedup_eq_firstOccurrenceDedup (xs : List String) :
    jsSetDedup xs = firstOccurrenceDedup xs := by
  rw [jsSetDedup, jsSetOfList_eq_firstOccurrenceDedup]
  simp

/-- Claim C5: getLessonById returns a lesson of the catalog whose id equals
the input, an absent result (not an error) exactly when no catalog lesson has
that id, a present result whenever some lesson has the id; concretely, the id
"types-and-inference" resolves to the lesson titled "Types & Type Inference"
and the id "nonexistent-id" resolves to absent. -/
theorem c5_get_lesson_by_id :
    (∀ id l, getLessonById id = some l → l ∈ lessons ∧ l.id = id) ∧
    (∀ id, getLessonById id = none → ∀ l ∈ lessons, l.id ≠ id) ∧
    (∀ id, (∃ l, l ∈ lessons ∧ l.id = id) → (getLessonById id).isSome = true) ∧
    ((getLessonById ("types-and-inference")).map Lesson.title =
      some ("Types & Type Inference")) ∧
    (getLessonById ("nonexistent-id") = none) := by
  refine ⟨?_, ?_, ?_, ?_, ?_⟩
  · intro id l h
    refine ⟨List.mem_of_find?_eq_some h, ?_⟩
    have hp := List.find?_some h
    simpa using hp
  · intro id h l hl
    have hp := List.find?_eq_none.mp h l hl
    simpa using hp
  · rintro id ⟨l, hl, hid⟩
    rw [getLessonById, List.find?_isSome]
    exact ⟨l, hl, by simpa using hid⟩
  · rfl
  · rfl

/-- Witness for C5 at the two concrete ids named by the claim. -/
theorem c5_witness :
    (getLessonById ("types-and-inference")).map Lesson.title =
      some ("Types & Type Inference") ∧
    getLessonById ("nonexistent-id") = none :=
  ⟨c5_get_lesson_by_id.2.2.2.1, c5_get_lesson_by_id.2.2.2.2⟩

/-- Claim C6: getCategoriesForModule and the global categories value are the
first-occurrence dedup (stable unique: duplicates removed, original relative
order preserved, not sorted) of the category values of the selected lessons:
they equal the spec-side firstOccurrenceDedup, have no duplicates, are
sublists of the category sequences they come from, contain exactly the same
values, and the dedup maps the claim example ["Type System", "Type System",
"Memory & Types"] to ["Type System", "Memory & Types"]. -/
theorem c6_categories_stable_unique :
    (∀ m, getCategoriesForModule m =
        firstOccurrenceDedup ((getLessonsByModule m).map (fun l => l.category))) ∧
    (categories = firstOccurrenceDedup (lessons.map (fun l => l.category))) ∧
    (∀ m, (getCategoriesForModule m).Nodup) ∧
    (∀ m, List.Sublist (getCategoriesForModule m)
        ((getLessonsByModule m).map (fun l => l.category))) ∧
    (∀ m a, a ∈ getCategoriesForModule m ↔
        a ∈ (getLessonsByModule m).map (fun l => l.category)) ∧
    (jsSetDedup ["Type System", "Type System", "Memory & Types"] =
      ["Type System", "Memory & Types"]) := by
  refine ⟨?_, ?_, ?_, ?_, ?_, ?_⟩
  · intro m
    exact jsSetDedup_eq_firstOccurrenceDedup _
  · exact jsSetDedup_eq_firstOccurrenceDedup _
  · intro m
    exact jsSetOfList_nodup _ []
  · intro m
    exact jsSetOfList_sublist _ []
  · intro m a
    rw [getCategoriesForModule, jsSetDedup, jsSetOfList_mem]
    simp
  · rfl

/-- Witness for C6: the concrete dedup example from the claim. -/
theorem c6_witness :
    jsSetDedup ["Type System", "Type System", "Memory & Types"] =
      ["Type System", "Memory & Types"] :=
  c6_categories_stable_unique.2.2.2.2.2

/-- Claim C7: getLessonsByModule returns a subsequence of the catalog (so
declaration order is preserved), containing exactly the lessons whose module
field equals the input (so every lesson of the other module is excluded), and
it is empty exactly when no catalog lesson has the given module tag. -/
theorem c7_lessons_by_module :
    (∀ m, List.Sublist (getLessonsByModule m) lessons) ∧
    (∀ m l, l ∈ getLessonsByModule m ↔ l ∈ lessons ∧ l.module = m) ∧
    (∀ m, getLessonsByModule m = [] ↔ ∀ l ∈ lessons, l.module ≠ m) := by
  refine ⟨?_, ?_, ?_⟩
  · intro m
    exact List.filter_sublist _
  · intro m l
    simp [getLessonsByModule, List.mem_filter]
  · intro m
    rw [getLessonsByModule, List.filter_eq_nil_iff]
    simp

/-- Witness for C7: the swift-basics selection is a subsequence of the
catalog. -/
theorem c7_witness :
    List.Sublist (getLessonsByModule Module.swiftBasics) lessons :=
  c7_lessons_by_module.1 Module.swiftBasics

set_option maxRecDepth 8192 in
/-- Claim C8: every section of every catalog lesson carries a format
discriminator equal to "comparison" or "single", so the two type guards
classify every catalog section into exactly one of the two variants. -/
theorem c8_sections_tagged :
    ∀ s ∈ allSections,
      (isComparisonSection s = true ∧ isSingleCodeSection s = false) ∨
      (isComparisonSection s = false ∧ isSingleCodeSection s = true) := by
  decide

set_option maxRecDepth 8192 in
/-- Witness for C8 at the first section of the first catalog lesson. -/
theorem c8_witness :
    (isComparisonSection
        (LessonSection.mk swiftBasicsSectionFormat ("Basic Type Annotations")) = true ∧
      isSingleCodeSection
        (LessonSection.mk swiftBasicsSectionFormat ("Basic Type Annotations")) = false) ∨
    (isComparisonSection
        (LessonSection.mk swiftBasicsSectionFormat ("Basic Type Annotations")) = false ∧
      isSingleCodeSection
        (LessonSection.mk swiftBasicsSectionFormat ("Basic Type Annotations")) = true) :=
  c8_sections_tagged
    (LessonSection.mk swiftBasicsSectionFormat ("Basic Type Annotations")) (by decide)

set_option maxRecDepth 8192 in
/-- Claim C9: the id field is unique across the entire catalog (swift-basics
lessons followed by swiftui lessons): the id list has no duplicates, and
lessons at distinct positions have distinct ids. -/
theorem c9_ids_unique :
    (lessons.map (fun l => l.id)).Nodup ∧
    ∀ i j : Fin lessons.length, i ≠ j →
      (lessons.get i).id ≠ (lessons.get j).id := by
  constructor
  · decide
  · decide

set_option maxRecDepth 8192 in
/-- Witness for C9 at the first two catalog positions. -/
theorem c9_witness :
    (lessons.get (⟨0, by decide⟩ : Fin lessons.length)).id ≠
      (lessons.get (⟨1, by decide⟩ : Fin lessons.length)).id :=
  c9_ids_unique.2 ⟨0, by decide⟩ ⟨1, by decide⟩ (by decide)

end SwiftReact
